import Mathlib

/-!
Shallow embedding of `src/sendMailHandler.ts` from the
aws-lambda-email-handler repository, together with proofs about the
claims on its behaviour.

External collaborators (the `JSON.parse` builtin, the busboy multipart
parser, the ajv-formats email regex, the https round trip to the
reCAPTCHA endpoint, and the SES transporter) are modelled as oracle
parameters: the repository's own control flow around them is translated
faithfully, while their internals are opaque functions/outcomes supplied
to the handler.
-/

/-- Raw bytes of a file part (`Buffer` in the source). -/
abbrev Bytes := List Nat

/-- A JavaScript field value as far as the ajv schema observes it:
either a string or some non-string JSON value. -/
inductive JsField where
  | str (s : String)
  | nonStr
deriving DecidableEq

/-- One extracted file: `{ filename, contentType, content }`
(`PostBody["files"]` element in the source). -/
structure FilePart where
  filename : String
  contentType : String
  content : Bytes
deriving DecidableEq

/-- Runtime value of the `files` entry as the dispatcher can observe
it: the declared array of file records, or a plain string — the
multipart extractor's `result[fieldname] = value` assignment (and an
arbitrary JSON body) can overwrite `files` with a form field's string
value despite the declared type. -/
inductive JsFiles where
  | arr (l : List FilePart)
  | strVal (s : String)
deriving DecidableEq

/-- The extraction result shaped like the source's `PostBody`.  Before
validation every field may be missing (the source casts the raw parse
result to `PostBody` with `as any`), hence the `Option`s; `files` may
at runtime hold a string instead of the declared array (see
`JsFiles`). -/
structure PostBody where
  name : Option JsField
  email : Option JsField
  subject : Option JsField
  message : Option JsField
  recaptcha : Option JsField
  files : Option JsFiles
deriving DecidableEq

/-- Test that a `files` value conforms to the source's declared type
`files?: Array<...>`: absent, or an actual array. -/
def filesDeclaredShape : Option JsFiles → Bool
  | none => true
  | some (.arr _) => true
  | some (.strVal _) => false

/-- Projection used after validation has ensured a field is a string
(in the source the field simply has static type `string`). -/
def strOf : Option JsField → String
  | some (.str s) => s
  | _ => ""

/-- Structure `SendMailConfig` from the source.  The optional booleans are
modelled as `Bool` (absent ≡ `false`, which is how the code reads
them); the optional strings as `Option String`. -/
structure SendMailConfig where
  region : Option String
  skipRecaptcha : Bool
  disableSend : Bool
  senderEmail : String
  recipientEmail : String
  recaptchaSecret : Option String
deriving DecidableEq

/-- The inbound `APIGatewayEvent` fields the handler reads. -/
structure APIGatewayEvent where
  headers : List (String × String)
  body : Option String
  isBase64Encoded : Bool
deriving DecidableEq

/-- JavaScript property access `event.headers[k]`: exact-key lookup. -/
def headerGet (hs : List (String × String)) (k : String) : Option String :=
  (hs.find? (fun p => p.1 = k)).map (fun p => p.2)

/-- JavaScript `a || b` on possibly-undefined strings: the empty string
and `undefined` are falsy. -/
def jsOrStr (a b : Option String) : Option String :=
  match a with
  | some s => if s = "" then b else some s
  | none => b

/-- Lookup `event.headers["content-type"] || event.headers["Content-Type"]`. -/
def contentTypeOf (event : APIGatewayEvent) : Option String :=
  jsOrStr (headerGet event.headers "content-type")
    (headerGet event.headers "Content-Type")

/-- Test that `pat` is a leading sequence of `s` (character lists). -/
def prefTest : List Char → List Char → Bool
  | [], _ => true
  | _ :: _, [] => false
  | p :: ps, c :: cs => p = c && prefTest ps cs

/-- Test that `pat` occurs somewhere inside `s` (character lists). -/
def subTest (pat : List Char) : List Char → Bool
  | [] => prefTest pat []
  | c :: cs => prefTest pat (c :: cs) || subTest pat cs

/-- JavaScript `s.includes(pat)`. -/
def hasSubstr (s pat : String) : Bool :=
  subTest pat.toList s.toList

/-- The truthiness test `contentType && contentType.includes("multipart/form-data")`
that routes between multipart and JSON extraction. -/
def isMultipartCT : Option String → Bool
  | none => false
  | some s => (s != "") && hasSubstr s "multipart/form-data"

/-- Structure `ResponseEnvelope`: the value handed to the lambda callback. -/
structure ResponseEnvelope where
  statusCode : Nat
  headers : List (String × String)
  body : String
deriving DecidableEq

/-- The fixed header set of both response constructors. -/
def responseHeaders : List (String × String) :=
  [("Content-Type", "application/json"), ("Access-Control-Allow-Origin", "*")]

/-- JSON string escaping as performed by `JSON.stringify` on the
embedded message strings (quote, backslash and common control chars). -/
def escChar (c : Char) : String :=
  if c = '"' then "\\\""
  else if c = '\\' then "\\\\"
  else if c = '\n' then "\\n"
  else if c = '\r' then "\\r"
  else if c = '\t' then "\\t"
  else String.singleton c

/-- Escape every character of a string for JSON embedding. -/
def jsonEscape (s : String) : String :=
  String.join (s.toList.map escChar)

/-- Body text `JSON.stringify({ message })`. -/
def stringifyMsg (message : String) : String :=
  "\x7b\"message\":\"" ++ jsonEscape message ++ "\"\x7d"

/-- Body text `JSON.stringify({ message, error: err.message })`. -/
def stringifyMsgErr (message errMsg : String) : String :=
  "\x7b\"message\":\"" ++ jsonEscape message ++ "\",\"error\":\""
    ++ jsonEscape errMsg ++ "\"\x7d"

/-- Function `buildSuccessResponse` from the source (the source gives
`statusCode` a default of 200; every call site uses the default). -/
def buildSuccessResponse (message : String) (statusCode : Nat) : ResponseEnvelope :=
  ⟨statusCode, responseHeaders, stringifyMsg message⟩

/-- Function `buildErrorResponse` from the source; `errMsg` is `err.message` of
the `Error` argument. -/
def buildErrorResponse (errMsg message : String) (statusCode : Nat) : ResponseEnvelope :=
  ⟨statusCode, responseHeaders, stringifyMsgErr message errMsg⟩

/-- The ajv "must have required property 'X'" message. -/
def reqMsg (f : String) : String :=
  "must have required property \x27" ++ f ++ "\x27"

/-- The compiled ajv validator for the handler's fixed schema.
ajv with `allErrors` off reports the first violated rule in
schema-declaration order: the `required` keyword (members in array
order: name, email, subject, message, recaptcha) runs before the
per-property subschemas (declaration order, each checking `type` then
`format`).  `emailFmt` is the ajv-formats email regex (external). -/
def validateObj (emailFmt : String → Bool) (b : PostBody) : Option String :=
  if b.name.isNone then some (reqMsg "name")
  else if b.email.isNone then some (reqMsg "email")
  else if b.subject.isNone then some (reqMsg "subject")
  else if b.message.isNone then some (reqMsg "message")
  else if b.recaptcha.isNone then some (reqMsg "recaptcha")
  else if b.name matches some .nonStr then some "must be string"
  else if b.email matches some .nonStr then some "must be string"
  else if !emailFmt (strOf b.email) then some "must match format \"email\""
  else if b.subject matches some .nonStr then some "must be string"
  else if b.message matches some .nonStr then some "must be string"
  else if b.recaptcha matches some .nonStr then some "must be string"
  else none

/-- The first member of the schema's `required` array that is missing
from the payload. -/
def firstMissingRequired (b : PostBody) : Option String :=
  if b.name.isNone then some "name"
  else if b.email.isNone then some "email"
  else if b.subject.isNone then some "subject"
  else if b.message.isNone then some "message"
  else if b.recaptcha.isNone then some "recaptcha"
  else none

/-- What `JSON.parse` can hand to the rest of the handler, as observed
by the validator and dispatcher: a JSON object shaped like `PostBody`,
or some non-object value (ajv rejects those with "must be object"). -/
inductive ParsedJson where
  | nonObj
  | obj (b : PostBody)
deriving DecidableEq

/-- One event emitted by the busboy multipart parser: a plain form
field, or a completed buffered file. -/
inductive MpEvent where
  | field (name value : String)
  | file (filename mimeType : String) (content : Bytes)
deriving DecidableEq

/-- The outcome busboy produces for this request's body: an `error`
event, or the stream of field/file events followed by `close`. -/
inductive MpOutcome where
  | err (msg : String)
  | events (evs : List MpEvent)
deriving DecidableEq

/-- The accumulator `extractMultipart` starts from: `{ files: [] }`. -/
def initMp : PostBody :=
  ⟨none, none, none, none, none, some (.arr [])⟩

/-- Assignment `result[fieldname] = value` for the busboy `field`
event.  The assignment happens for every field name; the six names
observable downstream are the five schema fields and `files` — a plain
form field named `files` overwrites the `files: []` accumulator with
its string value.  Assignments to any other name land on properties
that ajv ignores and the dispatcher never reads, so they are
dropped. -/
def setField (r : PostBody) (n v : String) : PostBody :=
  if n = "name" then { r with name := some (.str v) }
  else if n = "email" then { r with email := some (.str v) }
  else if n = "subject" then { r with subject := some (.str v) }
  else if n = "message" then { r with message := some (.str v) }
  else if n = "recaptcha" then { r with recaptcha := some (.str v) }
  else if n = "files" then { r with files := some (.strVal v) }
  else r

/-- Append `result.files.push({ filename, contentType, content })` for
a completed busboy `file` event.  When `files` no longer holds an
array (a field assignment overwrote it, or it were absent), the
source's `.push` throws a TypeError from the stream callback; this is
modelled as an extraction fault. -/
def pushFile (r : PostBody) (f : FilePart) : Except String PostBody :=
  match r.files with
  | some (.arr l) => .ok { r with files := some (.arr (l ++ [f])) }
  | _ => .error "result.files.push is not a function"

/-- Fold one busboy event into the accumulator. -/
def applyMpEvent (r : PostBody) (ev : MpEvent) : Except String PostBody :=
  match ev with
  | .field n v => .ok (setField r n v)
  | .file fn mt c => pushFile r ⟨fn, mt, c⟩

/-- Run the busboy event stream over the accumulator, stopping at the
first fault. -/
def runMpEvents : PostBody → List MpEvent → Except String PostBody
  | r, [] => .ok r
  | r, ev :: rest =>
    match applyMpEvent r ev with
    | .error e => .error e
    | .ok r2 => runMpEvents r2 rest

/-- Function `extractMultipart` from the source: rejects on a busboy `error`
event, otherwise folds the events into `{ files: [], ... }` and
resolves on `close`. -/
def extractMultipart (o : MpOutcome) : Except String PostBody :=
  match o with
  | .err e => .error e
  | .events evs => runMpEvents initMp evs

/-- JavaScript falsiness of `secret` in `verifyRecaptchaToken`:
`undefined` or the empty string. -/
def isFalsyOpt : Option String → Bool
  | none => true
  | some s => s = ""

/-- Outcome of the https round trip to the verification endpoint:
a request `error` event, or the accumulated response body text. -/
inductive NetResult where
  | err (msg : String)
  | data (s : String)
deriving DecidableEq

/-- Observable external calls made while handling one request. -/
inductive Effect where
  | verifyCall (token : String) (secret : Option String)
  | sendMail (fromAddr toAddr subject text replyTo : String)
      (attachments : Option (List (String × Bytes)))
deriving DecidableEq

/-- The outgoing `SendMailOptions`.  The source's `from`/`to` keys are
rendered `fromAddr`/`toAddr` (`from` is reserved in Lean). -/
structure SendMailOptions where
  fromAddr : String
  toAddr : String
  subject : String
  text : String
  replyTo : String
  attachments : Option (List (String × Bytes))
deriving DecidableEq

/-- The attachment mapping `(file) => ({ filename: file.filename,
content: file.content })`: only filename and bytes survive. -/
def toMailAttachment (f : FilePart) : String × Bytes :=
  (f.filename, f.content)

/-- Rewrite every file's contentType inside a `files` value (used to
state that contentTypes never influence the built message). -/
def mapFilesCT (g : FilePart → String) : JsFiles → JsFiles
  | .arr l => .arr (l.map fun f => { f with contentType := g f })
  | .strVal s => .strVal s

/-- Lines 84-97 of the source: build `mailOptions` from the config and
the validated body; `if (body.files)` sets `attachments` when `files`
is truthy (any array, even empty, is truthy; an empty string is
falsy), and `body.files.map` on a truthy non-array throws a TypeError
that the handler's catch-all turns into a 500. -/
def buildMailOptions (config : SendMailConfig) (b : PostBody) :
    Except String SendMailOptions :=
  let base : SendMailOptions :=
    { fromAddr := config.senderEmail
      toAddr := config.recipientEmail
      subject := strOf b.subject
      text := strOf b.message
      replyTo := strOf b.email
      attachments := none }
  match b.files with
  | none => .ok base
  | some (.arr l) => .ok { base with attachments := some (l.map toMailAttachment) }
  | some (.strVal s) =>
    if s = "" then .ok base
    else .error "body.files.map is not a function"

/-- Function `verifyRecaptchaToken` from the source, over the network oracle:
no/empty secret short-circuits to `true` with no network call; a
request error or a JSON-decode error rejects (propagates as a thrown
fault); otherwise the decoded `success` field is returned.
`parseSuccess` is `JSON.parse` + `.success` truthiness (external). -/
def verifyRecaptchaToken (token : String) (secret : Option String)
    (net : NetResult) (parseSuccess : String → Except String Bool) :
    Except String Bool × List Effect :=
  if isFalsyOpt secret then (.ok true, [])
  else
    match net with
    | .err e => (.error e, [.verifyCall token secret])
    | .data s =>
      match parseSuccess s with
      | .error e => (.error e, [.verifyCall token secret])
      | .ok b => (.ok b, [.verifyCall token secret])

/-- All external outcomes one request can observe. -/
structure Oracles where
  jsonParse : String → Except String ParsedJson
  multipart : MpOutcome
  verifyNet : NetResult
  verifyParseSuccess : String → Except String Bool
  emailFmt : String → Bool
  sendResult : Except String Unit

/-- The content-type routing plus extraction stage (lines 56-64):
multipart bodies go through busboy, everything else through
`JSON.parse(event.body ?? "")`. -/
def extractStage (orc : Oracles) (event : APIGatewayEvent) :
    Except String ParsedJson :=
  if isMultipartCT (contentTypeOf event) then
    (extractMultipart orc.multipart).map ParsedJson.obj
  else
    orc.jsonParse (event.body.getD "")

/-- Lines 72-82: the captcha stage.  `skipRecaptcha` bypasses the call
entirely; otherwise `verifyRecaptchaToken` runs with the payload's
token and the configured secret. -/
def verifyStage (config : SendMailConfig) (orc : Oracles) (b : PostBody) :
    Except String Bool × List Effect :=
  if config.skipRecaptcha then (.ok true, [])
  else
    verifyRecaptchaToken (strOf b.recaptcha) config.recaptchaSecret
      orc.verifyNet orc.verifyParseSuccess

/-- The generic message of the catch-all 500 response. -/
def genericErr : String := "Internal error, please try again later"

/-- The handler returned by `createSendMailHandler`, as the function
from the event (plus the oracles for the external collaborators) to
the callback's response envelope, paired with the list of external
calls performed.  Any rejected stage (extraction, verification,
message construction, sending) lands in the catch block, which answers
500 with the generic message and the fault's own text in the body's
`error` field. -/
def createSendMailHandler (config : SendMailConfig) (orc : Oracles)
    (event : APIGatewayEvent) : ResponseEnvelope × List Effect :=
  match extractStage orc event with
  | .error e => (buildErrorResponse e genericErr 500, [])
  | .ok .nonObj =>
    (buildErrorResponse "must be object" "must be object" 400, [])
  | .ok (.obj b) =>
    match validateObj orc.emailFmt b with
    | some msg => (buildErrorResponse msg msg 400, [])
    | none =>
      let vres := verifyStage config orc b
      match vres.1 with
      | .error e => (buildErrorResponse e genericErr 500, vres.2)
      | .ok verified =>
        if !verified then
          (buildErrorResponse "Invalid reCAPTCHA" "reCAPTCHA failed" 400, vres.2)
        else
          match buildMailOptions config b with
          | .error e => (buildErrorResponse e genericErr 500, vres.2)
          | .ok mo =>
            if config.disableSend then
              (buildSuccessResponse "Mail sent successfully" 200, vres.2)
            else
              let sendEff := Effect.sendMail mo.fromAddr mo.toAddr mo.subject
                mo.text mo.replyTo mo.attachments
              match orc.sendResult with
              | .ok _ =>
                (buildSuccessResponse "Mail sent successfully" 200, vres.2 ++ [sendEff])
              | .error e =>
                (buildErrorResponse e genericErr 500, vres.2 ++ [sendEff])

/-- Test for the captcha network-call effect. -/
def isVerifyCall : Effect → Bool
  | .verifyCall _ _ => true
  | .sendMail _ _ _ _ _ _ => false

/-- Test for the mail-collaborator call effect. -/
def isSendMailEff : Effect → Bool
  | .verifyCall _ _ => false
  | .sendMail _ _ _ _ _ _ => true

/-- When some required field is missing, the validator reports exactly
the first missing member of the schema's `required` array. -/
theorem validateObj_missing (fmt : String → Bool) (b : PostBody)
    (h : b.name = none ∨ b.email = none ∨ b.subject = none ∨
      b.message = none ∨ b.recaptcha = none) :
    ∃ f, firstMissingRequired b = some f ∧ validateObj fmt b = some (reqMsg f) := by
  by_cases hn : b.name = none
  · exact ⟨"name", by simp [firstMissingRequired, hn], by simp [validateObj, hn]⟩
  · by_cases he : b.email = none
    · exact ⟨"email", by simp [firstMissingRequired, hn, he],
        by simp [validateObj, hn, he]⟩
    · by_cases hs : b.subject = none
      · exact ⟨"subject", by simp [firstMissingRequired, hn, he, hs],
          by simp [validateObj, hn, he, hs]⟩
      · by_cases hm : b.message = none
        · exact ⟨"message", by simp [firstMissingRequired, hn, he, hs, hm],
            by simp [validateObj, hn, he, hs, hm]⟩
        · by_cases hr : b.recaptcha = none
          · exact ⟨"recaptcha", by simp [firstMissingRequired, hn, he, hs, hm, hr],
              by simp [validateObj, hn, he, hs, hm, hr]⟩
          · rcases h with h | h | h | h | h <;> contradiction

/-- Test whether a busboy event is a plain form field named `files`
(the one event that overwrites the files accumulator). -/
def clobbersFiles : MpEvent → Bool
  | .field n _ => n = "files"
  | .file _ _ _ => false

/-- A form-field assignment whose name is not `files` never touches
the `files` entry. -/
theorem setField_files (r : PostBody) (n v : String) (hn : n ≠ "files") :
    (setField r n v).files = r.files := by
  unfold setField
  repeat' split
  all_goals rfl

/-- Running busboy events none of which is a field named `files` keeps
the `files` entry an array once it is one. -/
theorem runMp_files_arr (evs : List MpEvent) :
    ∀ (r : PostBody) (l : List FilePart),
      (evs.all fun ev => !clobbersFiles ev) = true →
      r.files = some (.arr l) →
      ∀ b, runMpEvents r evs = .ok b → ∃ l2, b.files = some (.arr l2) := by
  induction evs with
  | nil =>
    intro r l _ hr b hb
    simp [runMpEvents] at hb
    rw [← hb]
    exact ⟨l, hr⟩
  | cons ev rest ih =>
    intro r l hall hr b hb
    simp [List.all_cons, Bool.and_eq_true] at hall
    rcases ev with ⟨n, v⟩ | ⟨fn, mt, c⟩
    · have hn : n ≠ "files" := by simpa [clobbersFiles] using hall.1
      simp [runMpEvents, applyMpEvent] at hb
      exact ih (setField r n v) l (by simpa using hall.2)
        (by rw [setField_files r n v hn]; exact hr) b hb
    · simp [runMpEvents, applyMpEvent, pushFile, hr] at hb
      exact ih _ (l ++ [⟨fn, mt, c⟩]) (by simpa using hall.2) rfl b hb

/-- The captcha stage only ever records captcha network calls, never a
mail-collaborator call. -/
theorem verifyStage_effects (config : SendMailConfig) (orc : Oracles) (b : PostBody) :
    ((verifyStage config orc b).2.all fun eff => !isSendMailEff eff) = true := by
  unfold verifyStage verifyRecaptchaToken
  repeat' split
  all_goals rfl

/-- A fully valid contact payload (the spec's scenario payload). -/
def validBody : PostBody :=
  ⟨some (.str "Jane Doe"), some (.str "jane@example.com"), some (.str "Hi"),
    some (.str "hey"), some (.str "tok"), none⟩

/-- A payload missing the required `name` field. -/
def bodyNoName : PostBody :=
  ⟨none, some (.str "jane@example.com"), some (.str "Hi"),
    some (.str "hey"), some (.str "tok"), none⟩

/-- Test configuration: captcha skipped, sending disabled. -/
def cfgSkip : SendMailConfig :=
  ⟨none, true, true, "a@b.com", "c@d.com", none⟩

/-- Test configuration: captcha enabled with a configured secret,
sending disabled. -/
def cfgSecret : SendMailConfig :=
  ⟨none, false, true, "a@b.com", "c@d.com", some "sec"⟩

/-- A JSON request event (content-type stored under `Content-Type`). -/
def evJson : APIGatewayEvent :=
  ⟨[("Content-Type", "application/json")], some "payload", false⟩

/-- Oracles: the JSON body parses to `validBody`, verification decodes
to `success:true`, sending succeeds. -/
def orcOkBody : Oracles :=
  ⟨fun _ => .ok (.obj validBody), .events [], .data "resp",
    fun _ => .ok true, fun _ => true, .ok ()⟩

/-- Oracles: `JSON.parse` throws with message "ParseBoom". -/
def orcParseFault : Oracles :=
  ⟨fun _ => .error "ParseBoom", .events [], .data "resp",
    fun _ => .ok true, fun _ => true, .ok ()⟩

/-- Oracles: valid body, but the captcha https request errors. -/
def orcNetFault : Oracles :=
  ⟨fun _ => .ok (.obj validBody), .events [], .err "socket hang up",
    fun _ => .ok true, fun _ => true, .ok ()⟩

/-- Oracles: valid body, captcha verification decodes to
`success:false`. -/
def orcVerifyFalse : Oracles :=
  ⟨fun _ => .ok (.obj validBody), .events [], .data "resp",
    fun _ => .ok false, fun _ => true, .ok ()⟩

/-- Oracles: the JSON body parses to `bodyNoName`. -/
def orcNoName : Oracles :=
  ⟨fun _ => .ok (.obj bodyNoName), .events [], .data "resp",
    fun _ => .ok true, fun _ => true, .ok ()⟩

/-- Claim C9: the Response Builder constructors are pure and
deterministic — two calls with identical arguments yield byte-identical
response envelopes. -/
theorem c9_response_builder_deterministic :
    ∀ (message errMsg : String) (statusCode : Nat),
      buildSuccessResponse message statusCode = buildSuccessResponse message statusCode ∧
      buildErrorResponse errMsg message statusCode = buildErrorResponse errMsg message statusCode :=
  fun _ _ _ => ⟨rfl, rfl⟩

/-- Claim C4: a request routed to JSON parsing whose body is not valid
JSON (the parse throws) is answered with the generic 500 internal-error
response: extraction faults are treated as internal errors, not 400s. -/
theorem c4_invalid_json_500 (config : SendMailConfig) (orc : Oracles)
    (event : APIGatewayEvent) (e : String)
    (hroute : isMultipartCT (contentTypeOf event) = false)
    (hparse : orc.jsonParse (event.body.getD "") = .error e) :
    createSendMailHandler config orc event =
      (buildErrorResponse e genericErr 500, []) ∧
    (createSendMailHandler config orc event).1.statusCode = 500 := by
  have hx : extractStage orc event = .error e := by
    unfold extractStage
    rw [hroute]
    simpa using hparse
  have h1 : createSendMailHandler config orc event =
      (buildErrorResponse e genericErr 500, []) := by
    unfold createSendMailHandler
    rw [hx]
  refine ⟨h1, ?_⟩
  rw [h1]
  rfl

/-- Claim C4 witness: a concrete malformed-JSON request yields the
500 envelope. -/
theorem c4_invalid_json_500_witness :
    createSendMailHandler cfgSkip orcParseFault evJson =
      (buildErrorResponse "ParseBoom" genericErr 500, []) ∧
    (createSendMailHandler cfgSkip orcParseFault evJson).1.statusCode = 500 :=
  c4_invalid_json_500 cfgSkip orcParseFault evJson "ParseBoom" (by decide) rfl

/-- Claim C5: a payload missing any of the five required fields is
answered 400, and the message is the ajv required-property message for
the first missing field in the schema's `required`-array order. -/
theorem c5_missing_required_400 (config : SendMailConfig) (orc : Oracles)
    (event : APIGatewayEvent) (b : PostBody)
    (hx : extractStage orc event = .ok (.obj b))
    (hmiss : b.name = none ∨ b.email = none ∨ b.subject = none ∨
      b.message = none ∨ b.recaptcha = none) :
    ∃ f, firstMissingRequired b = some f ∧
      createSendMailHandler config orc event =
        (buildErrorResponse (reqMsg f) (reqMsg f) 400, []) := by
  obtain ⟨f, hf, hv⟩ := validateObj_missing orc.emailFmt b hmiss
  refine ⟨f, hf, ?_⟩
  unfold createSendMailHandler
  rw [hx]
  simp [hv]

/-- Claim C5 witness: a concrete payload missing `name` is answered 400
with the required-property message for `name`. -/
theorem c5_missing_required_400_witness :
    ∃ f, firstMissingRequired bodyNoName = some f ∧
      createSendMailHandler cfgSkip orcNoName evJson =
        (buildErrorResponse (reqMsg f) (reqMsg f) 400, []) :=
  c5_missing_required_400 cfgSkip orcNoName evJson bodyNoName rfl (Or.inl rfl)

/-- Test configuration: captcha skipped, sending enabled. -/
def cfgSend : SendMailConfig :=
  ⟨none, true, false, "a@b.com", "c@d.com", none⟩

/-- Oracles: valid body, the SES transporter rejects with "SesBoom". -/
def orcSendFault : Oracles :=
  ⟨fun _ => .ok (.obj validBody), .events [], .data "resp",
    fun _ => .ok true, fun _ => true, .error "SesBoom"⟩

/-- Claim C1 counterexample: a request whose JSON parse throws with
message "ParseBoom" is answered 500, and the delivered response body
does contain the underlying fault's description text (in the `error`
field), contradicting "never contains". -/
theorem c1_fault_text_exposed_cex :
    (createSendMailHandler cfgSkip orcParseFault evJson).1.statusCode = 500 ∧
    hasSubstr (createSendMailHandler cfgSkip orcParseFault evJson).1.body "ParseBoom" = true := by
  decide

/-- Claim C1 amended: for every request ending in a parse fault, a
message-construction fault, or a dispatch fault the handler answers
500 whose body is the JSON of `message` = the generic text and
`error` = the underlying fault's description; the fault text therefore
is delivered to the caller, in the `error` field, alongside the
generic message. -/
theorem c1_amended_error_body (config : SendMailConfig) (orc : Oracles)
    (event : APIGatewayEvent) (e : String) :
    (extractStage orc event = .error e →
      createSendMailHandler config orc event =
        (buildErrorResponse e genericErr 500, [])) ∧
    (∀ b, extractStage orc event = .ok (.obj b) →
      validateObj orc.emailFmt b = none →
      (verifyStage config orc b).1 = .ok true →
      buildMailOptions config b = .error e →
      (createSendMailHandler config orc event).1 =
        buildErrorResponse e genericErr 500) ∧
    (∀ b mo, extractStage orc event = .ok (.obj b) →
      validateObj orc.emailFmt b = none →
      (verifyStage config orc b).1 = .ok true →
      buildMailOptions config b = .ok mo →
      config.disableSend = false →
      orc.sendResult = .error e →
      (createSendMailHandler config orc event).1 =
        buildErrorResponse e genericErr 500) := by
  refine ⟨?_, ?_, ?_⟩
  · intro hx
    unfold createSendMailHandler
    rw [hx]
  · intro b hx hv hver hmo
    unfold createSendMailHandler
    rw [hx]
    simp [hv, hver, hmo]
  · intro b mo hx hv hver hmo hd hsr
    unfold createSendMailHandler
    rw [hx]
    simp [hv, hver, hmo, hd, hsr]

/-- Claim C1 witness: the amended statement at a concrete parse fault
and a concrete dispatch fault. -/
theorem c1_amended_error_body_witness :
    createSendMailHandler cfgSkip orcParseFault evJson =
      (buildErrorResponse "ParseBoom" genericErr 500, []) ∧
    (createSendMailHandler cfgSend orcSendFault evJson).1 =
      buildErrorResponse "SesBoom" genericErr 500 :=
  ⟨(c1_amended_error_body cfgSkip orcParseFault evJson "ParseBoom").1 rfl,
    (c1_amended_error_body cfgSend orcSendFault evJson "SesBoom").2.2 validBody
      ⟨"a@b.com", "c@d.com", "Hi", "hey", "jane@example.com", none⟩
      rfl rfl rfl rfl rfl rfl⟩

/-- Claim C2 counterexample: with a configured secret and
`skipRecaptcha = false`, a network fault during captcha verification is
answered 500 (generic internal error) while an explicit `success:false`
result is answered 400 "reCAPTCHA failed" — the two outcomes differ. -/
theorem c2_fault_vs_false_cex :
    (createSendMailHandler cfgSecret orcNetFault evJson).1.statusCode = 500 ∧
    (createSendMailHandler cfgSecret orcVerifyFalse evJson).1.statusCode = 400 ∧
    (createSendMailHandler cfgSecret orcNetFault evJson).1 ≠
      (createSendMailHandler cfgSecret orcVerifyFalse evJson).1 := by
  decide

/-- Claim C2 amended: with a configured (truthy) secret and
`skipRecaptcha = false`, a network or JSON-decoding fault during
captcha verification propagates to the catch-all and is answered 500
with the generic internal message, whereas an explicit `success:false`
verification result is answered 400 with the fixed message "reCAPTCHA
failed" — the outcomes are not the same. -/
theorem c2_amended_fault_500 (config : SendMailConfig) (orc : Oracles)
    (event : APIGatewayEvent) (b : PostBody) (s e : String)
    (hsec : config.recaptchaSecret = some s) (hsne : s ≠ "")
    (hskip : config.skipRecaptcha = false)
    (hx : extractStage orc event = .ok (.obj b))
    (hval : validateObj orc.emailFmt b = none) :
    (orc.verifyNet = .err e →
      (createSendMailHandler config orc event).1 =
        buildErrorResponse e genericErr 500) ∧
    (∀ d, orc.verifyNet = .data d → orc.verifyParseSuccess d = .error e →
      (createSendMailHandler config orc event).1 =
        buildErrorResponse e genericErr 500) ∧
    (∀ d, orc.verifyNet = .data d → orc.verifyParseSuccess d = .ok false →
      (createSendMailHandler config orc event).1 =
        buildErrorResponse "Invalid reCAPTCHA" "reCAPTCHA failed" 400) := by
  have hfal : isFalsyOpt config.recaptchaSecret = false := by
    rw [hsec]
    simp [isFalsyOpt, hsne]
  refine ⟨?_, ?_, ?_⟩
  · intro hnet
    unfold createSendMailHandler
    rw [hx]
    simp [hval, verifyStage, hskip, verifyRecaptchaToken, hfal, hnet]
  · intro d hnet hp
    unfold createSendMailHandler
    rw [hx]
    simp [hval, verifyStage, hskip, verifyRecaptchaToken, hfal, hnet, hp]
  · intro d hnet hp
    unfold createSendMailHandler
    rw [hx]
    simp [hval, verifyStage, hskip, verifyRecaptchaToken, hfal, hnet, hp]

/-- Claim C2 witness: the amended statement at a concrete network
fault. -/
theorem c2_amended_fault_500_witness :
    (createSendMailHandler cfgSecret orcNetFault evJson).1 =
      buildErrorResponse "socket hang up" genericErr 500 :=
  (c2_amended_fault_500 cfgSecret orcNetFault evJson validBody "sec" "socket hang up"
    rfl (by decide) rfl rfl rfl).1 rfl

/-- A multipart content-type value with a boundary parameter. -/
def c3mpCT : String := "multipart/form-data; boundary=x"

/-- Event storing the multipart content-type under the exact key
`content-type`. -/
def c3evLower : APIGatewayEvent :=
  ⟨[("content-type", c3mpCT)], some "raw", false⟩

/-- Event storing the same value under the key `CONTENT-TYPE`, a casing
the handler never consults. -/
def c3evUpper : APIGatewayEvent :=
  ⟨[("CONTENT-TYPE", c3mpCT)], some "raw", false⟩

/-- Oracles for the casing counterexample: busboy sees an empty form,
and the body is not valid JSON. -/
def c3orc : Oracles :=
  ⟨fun _ => .error "Unexpected token r in JSON at position 0", .events [],
    .data "resp", fun _ => .ok true, fun _ => true, .ok ()⟩

/-- Claim C3 counterexample: the same multipart request stored under
the header key `content-type` is routed to multipart parsing (here a
400 validation answer), while stored under `CONTENT-TYPE` it is routed
to JSON parsing (here a 500 parse-fault answer) — so the lookup is not
case-insensitive over arbitrary casings. -/
theorem c3_casing_cex :
    (createSendMailHandler cfgSkip c3orc c3evLower).1.statusCode = 400 ∧
    (createSendMailHandler cfgSkip c3orc c3evUpper).1.statusCode = 500 ∧
    createSendMailHandler cfgSkip c3orc c3evLower ≠
      createSendMailHandler cfgSkip c3orc c3evUpper := by
  decide

/-- Claim C3 amended: the content-type lookup consults exactly the two
key spellings `content-type` and `Content-Type`: if neither exact key
is present the request is routed to JSON parsing, and a multipart
value stored under either exact spelling is routed to multipart
parsing. -/
theorem c3_amended_two_casings (event : APIGatewayEvent) :
    (headerGet event.headers "content-type" = none →
      headerGet event.headers "Content-Type" = none →
      isMultipartCT (contentTypeOf event) = false) ∧
    (∀ v : String, hasSubstr v "multipart/form-data" = true → v ≠ "" →
      (headerGet event.headers "content-type" = some v →
        isMultipartCT (contentTypeOf event) = true) ∧
      (headerGet event.headers "content-type" = none →
        headerGet event.headers "Content-Type" = some v →
        isMultipartCT (contentTypeOf event) = true)) := by
  constructor
  · intro h1 h2
    simp [contentTypeOf, jsOrStr, h1, h2, isMultipartCT]
  · intro v hsub hne
    constructor
    · intro h1
      simp [contentTypeOf, jsOrStr, h1, hne, isMultipartCT, hsub]
    · intro h1 h2
      simp [contentTypeOf, jsOrStr, h1, h2, hne, isMultipartCT, hsub]

/-- Claim C3 witness: the amended statement at the two concrete
events. -/
theorem c3_amended_two_casings_witness :
    isMultipartCT (contentTypeOf c3evLower) = true ∧
    isMultipartCT (contentTypeOf c3evUpper) = false :=
  ⟨((c3_amended_two_casings c3evLower).2 c3mpCT (by decide) (by decide)).1 rfl,
    (c3_amended_two_casings c3evUpper).1 rfl rfl⟩

/-- Claim C6: with `skipRecaptcha = true` in the configuration no
captcha verification call is ever performed, and the handler's outcome
is independent of the verification collaborator's behaviour. -/
theorem c6_skip_recaptcha_no_verify (config : SendMailConfig) (orc : Oracles)
    (event : APIGatewayEvent) (n : NetResult) (p : String → Except String Bool)
    (h : config.skipRecaptcha = true) :
    ((createSendMailHandler config orc event).2.all fun eff => !isVerifyCall eff) = true ∧
    createSendMailHandler config
        { orc with verifyNet := n, verifyParseSuccess := p } event =
      createSendMailHandler config orc event := by
  have hvs : ∀ (o : Oracles) (b : PostBody), verifyStage config o b = (.ok true, []) := by
    intro o b
    unfold verifyStage
    rw [h]
    simp
  constructor
  · unfold createSendMailHandler
    simp only [hvs]
    rcases hE : extractStage orc event with e | pj
    · simp [hE]
    · rcases pj with _ | b
      · simp [hE]
      · rcases hV : validateObj orc.emailFmt b with _ | msg
        · rcases hmo : buildMailOptions config b with e | mo
          · simp [hE, hV, hmo]
          · rcases hd : config.disableSend
            · rcases hsr : orc.sendResult with e | u <;>
                simp [hE, hV, hmo, hd, hsr, isVerifyCall]
            · simp [hE, hV, hmo, hd]
        · simp [hE, hV]
  · have hE2 : extractStage { orc with verifyNet := n, verifyParseSuccess := p } event
        = extractStage orc event := rfl
    unfold createSendMailHandler
    rw [hE2]
    rcases hE : extractStage orc event with e | pj
    · simp [hE]
    · rcases pj with _ | b
      · simp [hE]
      · simp only [hE, hvs]

/-- Claim C6 witness: concrete skipped-captcha run, with the
verification oracles replaced by a failing network and a
false-decoding parse. -/
theorem c6_skip_recaptcha_no_verify_witness :
    ((createSendMailHandler cfgSkip orcOkBody evJson).2.all fun eff => !isVerifyCall eff) = true ∧
    createSendMailHandler cfgSkip
        { orcOkBody with verifyNet := .err "x", verifyParseSuccess := fun _ => .ok false } evJson =
      createSendMailHandler cfgSkip orcOkBody evJson :=
  c6_skip_recaptcha_no_verify cfgSkip orcOkBody evJson (.err "x") (fun _ => .ok false) rfl

/-- Claim C7: with `disableSend = true`, a payload that passes
validation, conforms to the declared `files?: Array<...>` shape, and
whose captcha stage yields `true` (skipped, disabled, or verified) is
answered 200 "Mail sent successfully", and the mail-sending
collaborator is never invoked. -/
theorem c7_disable_send_success (config : SendMailConfig) (orc : Oracles)
    (event : APIGatewayEvent) (b : PostBody)
    (hd : config.disableSend = true)
    (hx : extractStage orc event = .ok (.obj b))
    (hval : validateObj orc.emailFmt b = none)
    (hfs : filesDeclaredShape b.files = true)
    (hver : (verifyStage config orc b).1 = .ok true) :
    createSendMailHandler config orc event =
      (buildSuccessResponse "Mail sent successfully" 200,
        (verifyStage config orc b).2) ∧
    ((createSendMailHandler config orc event).2.all fun eff => !isSendMailEff eff) = true := by
  obtain ⟨mo, hmo⟩ : ∃ mo, buildMailOptions config b = .ok mo := by
    rcases hbf : b.files with _ | jf
    · exact ⟨⟨config.senderEmail, config.recipientEmail, strOf b.subject,
        strOf b.message, strOf b.email, none⟩, by simp [buildMailOptions, hbf]⟩
    · rcases jf with l | sv
      · exact ⟨⟨config.senderEmail, config.recipientEmail, strOf b.subject,
          strOf b.message, strOf b.email, some (l.map toMailAttachment)⟩,
          by simp [buildMailOptions, hbf]⟩
      · rw [hbf] at hfs
        simp [filesDeclaredShape] at hfs
  have h1 : createSendMailHandler config orc event =
      (buildSuccessResponse "Mail sent successfully" 200,
        (verifyStage config orc b).2) := by
    unfold createSendMailHandler
    rw [hx]
    simp [hval, hver, hmo, hd]
  refine ⟨h1, ?_⟩
  rw [h1]
  exact verifyStage_effects config orc b

/-- Claim C7 witness: the spec's scenario — valid payload,
`skipRecaptcha = true`, `disableSend = true` — answers 200 without a
mail call. -/
theorem c7_disable_send_success_witness :
    createSendMailHandler cfgSkip orcOkBody evJson =
      (buildSuccessResponse "Mail sent successfully" 200,
        (verifyStage cfgSkip orcOkBody validBody).2) ∧
    ((createSendMailHandler cfgSkip orcOkBody evJson).2.all fun eff => !isSendMailEff eff) = true :=
  c7_disable_send_success cfgSkip orcOkBody evJson validBody rfl rfl rfl rfl rfl

/-- Claim C8: the dispatcher builds the outgoing message with sender
and recipient from the configuration, subject and body text from the
payload's `subject` and `message`, reply-to from the payload's
`email`, attachments mapped 1:1 to (filename, bytes) when `files` is
the declared array (absent `files` gives no attachments entry) — and
the files' content-types do not influence the built message at all. -/
theorem c8_mail_options_fields (config : SendMailConfig) (b : PostBody)
    (e s m : String)
    (he : b.email = some (.str e)) (hs : b.subject = some (.str s))
    (hm : b.message = some (.str m)) :
    (b.files = none →
      buildMailOptions config b =
        .ok ⟨config.senderEmail, config.recipientEmail, s, m, e, none⟩) ∧
    (∀ l, b.files = some (.arr l) →
      buildMailOptions config b =
        .ok ⟨config.senderEmail, config.recipientEmail, s, m, e,
          some (l.map toMailAttachment)⟩) ∧
    ∀ g : FilePart → String,
      buildMailOptions config { b with files := b.files.map (mapFilesCT g) } =
        buildMailOptions config b := by
  refine ⟨?_, ?_, ?_⟩
  · intro h
    unfold buildMailOptions
    rw [h, he, hs, hm]
    rfl
  · intro l hl
    unfold buildMailOptions
    rw [hl, he, hs, hm]
    rfl
  · intro g
    have hcomp : ∀ fs : List FilePart,
        (fs.map fun f => { f with contentType := g f }).map toMailAttachment
          = fs.map toMailAttachment := by
      intro fs
      induction fs with
      | nil => rfl
      | cons f rest ih => simp [ih, toMailAttachment]
    rcases hbf : b.files with _ | jf
    · unfold buildMailOptions
      rw [hbf]
      rfl
    · rcases jf with l | sv
      · unfold buildMailOptions
        rw [hbf]
        simp [mapFilesCT, hcomp l]
      · unfold buildMailOptions
        rw [hbf]
        rfl

/-- Claim C8 witness: a concrete validated payload with one file part
"x.txt" carrying the bytes of "hello". -/
def bodyWithFile : PostBody :=
  ⟨some (.str "Jane Doe"), some (.str "jane@example.com"), some (.str "Hi"),
    some (.str "hey"), some (.str "tok"),
    some (.arr [⟨"x.txt", "text/plain", [104, 101, 108, 108, 111]⟩])⟩

/-- Claim C8 witness theorem: the built message at `bodyWithFile`. -/
theorem c8_mail_options_fields_witness :
    buildMailOptions cfgSecret bodyWithFile =
      .ok ⟨"a@b.com", "c@d.com", "Hi", "hey", "jane@example.com",
        some [("x.txt", [104, 101, 108, 108, 111])]⟩ :=
  (c8_mail_options_fields cfgSecret bodyWithFile "jane@example.com" "Hi" "hey"
    rfl rfl rfl).2.1 [⟨"x.txt", "text/plain", [104, 101, 108, 108, 111]⟩] rfl

/-- Events of a multipart form carrying the five schema fields and a
plain form field named `files` with the empty string as value. -/
def mpClobberEvs : List MpEvent :=
  [.field "name" "Jane Doe", .field "email" "jane@example.com",
    .field "subject" "Hi", .field "message" "hey", .field "recaptcha" "tok",
    .field "files" ""]

/-- The payload those events extract to: the `files: []` accumulator
has been overwritten by the empty string. -/
def mpClobberBody : PostBody :=
  ⟨some (.str "Jane Doe"), some (.str "jane@example.com"), some (.str "Hi"),
    some (.str "hey"), some (.str "tok"), some (.strVal "")⟩

/-- A multipart request event (content-type under `content-type`). -/
def evMp : APIGatewayEvent :=
  ⟨[("content-type", c3mpCT)], some "raw", false⟩

/-- Oracles for the clobbered multipart run: busboy yields
`mpClobberEvs`, captcha would verify, sending succeeds. -/
def orcMpClobber : Oracles :=
  ⟨fun _ => .error "unused", .events mpClobberEvs, .data "resp",
    fun _ => .ok true, fun _ => true, .ok ()⟩

/-- Claim C10 counterexample: a multipart form whose parts include a
plain field named `files` extracts successfully, but its `files` entry
is NOT an array (the accumulator was overwritten with the string
value), it passes validation, and the resulting mail is sent with no
attachments entry at all — so a valid multipart submission does not
always produce a message with an attachments list. -/
theorem c10_files_clobber_cex :
    extractMultipart (.events mpClobberEvs) = .ok mpClobberBody ∧
    (mpClobberBody.files matches some (.arr _)) = false ∧
    createSendMailHandler cfgSend orcMpClobber evMp =
      (buildSuccessResponse "Mail sent successfully" 200,
        [Effect.sendMail "a@b.com" "c@d.com" "Hi" "hey" "jane@example.com" none]) := by
  refine ⟨rfl, rfl, ?_⟩
  decide

/-- Claim C10 amended: a successful multipart extraction whose form
contains no plain field named `files` yields a payload whose `files`
entry is an array (possibly empty), forwarded as the message's
attachments list; a payload with no `files` entry (as for a JSON body
without one) or whose `files` was overwritten by an empty string gets
a message with no attachments entry at all; a `files` entry holding a
non-empty string makes message construction fault (a 500 via the
catch-all). -/
theorem c10_files_attachments (config : SendMailConfig) :
    (∀ (evs : List MpEvent) (b : PostBody),
      (evs.all fun ev => !clobbersFiles ev) = true →
      extractMultipart (.events evs) = .ok b →
      ∃ l, b.files = some (.arr l) ∧
        (buildMailOptions config b).map SendMailOptions.attachments =
          .ok (some (l.map toMailAttachment))) ∧
    (∀ b : PostBody, b.files = none →
      (buildMailOptions config b).map SendMailOptions.attachments = .ok none) ∧
    (∀ b : PostBody, b.files = some (.strVal "") →
      (buildMailOptions config b).map SendMailOptions.attachments = .ok none) ∧
    (∀ (b : PostBody) (s : String), b.files = some (.strVal s) → s ≠ "" →
      ∃ msg, buildMailOptions config b = .error msg) := by
  refine ⟨?_, ?_, ?_, ?_⟩
  · intro evs b hall hok
    obtain ⟨l, hl⟩ := runMp_files_arr evs initMp [] hall rfl b hok
    refine ⟨l, hl, ?_⟩
    simp [buildMailOptions, hl, Except.map]
  · intro b hb
    simp [buildMailOptions, hb, Except.map]
  · intro b hb
    simp [buildMailOptions, hb, Except.map]
  · intro b s hb hs
    refine ⟨"body.files.map is not a function", ?_⟩
    simp [buildMailOptions, hb, hs]

/-- Events of a concrete multipart form: the five fields and one file
part "x.txt" with bytes "hello". -/
def mpEventsW : List MpEvent :=
  [.field "name" "Jane Doe", .field "email" "jane@example.com",
    .field "subject" "Hi", .field "message" "hey", .field "recaptcha" "tok",
    .file "x.txt" "text/plain" [104, 101, 108, 108, 111]]

/-- The payload extracted from `mpEventsW`. -/
def mpBodyW : PostBody :=
  ⟨some (.str "Jane Doe"), some (.str "jane@example.com"), some (.str "Hi"),
    some (.str "hey"), some (.str "tok"),
    some (.arr [⟨"x.txt", "text/plain", [104, 101, 108, 108, 111]⟩])⟩

/-- Claim C10 witness: the concrete clobber-free multipart extraction
has an array `files` entry which is forwarded as attachments. -/
theorem c10_files_attachments_witness :
    ∃ l, mpBodyW.files = some (.arr l) ∧
      (buildMailOptions cfgSkip mpBodyW).map SendMailOptions.attachments =
        .ok (some (l.map toMailAttachment)) :=
  (c10_files_attachments cfgSkip).1 mpEventsW mpBodyW (by decide) rfl
